import Mathlib

/-!
Verification of the OpenAI-compatible wrapper around the Claude Code CLI
(`main.py`).  The Python source is shallowly embedded: pure helpers become
Lean functions over `List Char` (Python strings), the subprocess boundary
becomes an explicit outcome datatype, and the HTTP handlers become total
functions from requests (plus a stubbed runner) to results.  Token
arithmetic (`word count × 1.3`, truncated) is modelled exactly, as
`13 * n / 10` over `Nat`.
-/

namespace ClaudeCodeAPI

/-- Characters stripped by Python's `str.strip()` (ASCII whitespace). -/
def pyIsSpace (c : Char) : Bool :=
  c = ' ' || c = '\t' || c = '\n' || c = '\x0d' || c = '\x0b' || c = '\x0c'

/-- Python `s.strip()` on a character list. -/
def pyStripL (l : List Char) : List Char :=
  ((l.dropWhile pyIsSpace).reverse.dropWhile pyIsSpace).reverse

/-- Python `s.strip()`. -/
def pyStrip (s : String) : String :=
  ⟨pyStripL s.data⟩

/-- Split a character list at every character satisfying `p`, keeping empty
segments, like Python `s.split(sep)` for a single-character separator. -/
def splitP (p : Char → Bool) : List Char → List (List Char)
  | [] => [[]]
  | a :: as =>
    let r := splitP p as
    if p a then [] :: r
    else
      match r with
      | [] => [[a]]
      | h :: t => (a :: h) :: t

/-- Boolean list-prefix test. -/
def isPrefixB : List Char → List Char → Bool
  | [], _ => true
  | _ :: _, [] => false
  | a :: as, b :: bs => a = b && isPrefixB as bs

/-- Python `pattern in line`: `pat` occurs as a contiguous substring. -/
def containsSubL (pat : List Char) : List Char → Bool
  | [] => pat.isEmpty
  | a :: as => isPrefixB pat (a :: as) || containsSubL pat as

/-- Python `len(s.split())`: number of maximal whitespace-free words. -/
def wordCount (s : String) : Nat :=
  ((splitP pyIsSpace s.data).filter (fun w => w ≠ [])).length

/-- The `skip_patterns` list of `extract_claude_response`. -/
def skip_patterns : List String :=
  ["Loading project",
   "Analyzing codebase",
   "Working directory:",
   "Press Ctrl+C",
   "Conversation saved",
   "Session",
   "───",
   "│"]

/-- Python `any(pattern in line for pattern in skip_patterns)`. -/
def isNoiseLine (line : List Char) : Bool :=
  skip_patterns.any (fun p => containsSubL p.data line)

/-- The per-line keep condition of the extraction loop: the line is not blank
and matches no noise pattern. -/
def keepLine (line : List Char) : Bool :=
  !(pyStripL line).isEmpty && !isNoiseLine line

/-- The method `ClaudeCodeInterface.extract_claude_response`: split stdout into
lines, drop blank and noise lines, strip the survivors, rejoin with newlines;
fall back to the whole stripped stdout when the result is empty or shorter
than 10 characters. -/
def extract_claude_response (output : String) : String :=
  let lines := splitP (fun c => c = '\n') (pyStrip output).data
  let response_lines := (lines.filter keepLine).map pyStripL
  let response := List.intercalate ['\n'] response_lines
  if response.isEmpty || response.length < 10 then pyStrip output
  else ⟨response⟩

/-- The Response Extractor as §4.3 of the specification words it: split into
lines, drop blank lines, drop lines containing a noise substring, trim the
remaining lines, rejoin with newlines in original order, and fall back to the
full trimmed raw stdout when the result is empty or shorter than 10
characters.  Kept separate from `extract_claude_response` (embedded from the
code) so the two can be compared. -/
def extract_spec_description (raw : String) : String :=
  let lines := splitP (fun c => c = '\n') (pyStrip raw).data
  let nonBlank := lines.filter (fun l => !(pyStripL l).isEmpty)
  let content := nonBlank.filter (fun l => !isNoiseLine l)
  let joined := List.intercalate ['\n'] (content.map pyStripL)
  if joined.isEmpty || joined.length < 10 then pyStrip raw else ⟨joined⟩

/-- Pydantic `ChatMessage`. -/
structure ChatMessage where
  role : String
  content : String
  name : Option String := none
deriving DecidableEq, Repr

/-- Pydantic `ChatCompletionRequest`.  Float-typed sampling fields
(`temperature`, `top_p`, penalties, `logit_bias`) are accepted by the server
but never read by the bridge, so they are omitted from the embedding. -/
structure ChatCompletionRequest where
  model : String := "claude-sonnet-4"
  messages : List ChatMessage
  max_tokens : Option Nat := none
  n : Option Nat := some 1
  stream : Option Bool := some false
  user : Option String := none
deriving DecidableEq, Repr

/-- Pydantic `ChatCompletionChoice`. -/
structure ChatCompletionChoice where
  index : Nat
  message : ChatMessage
  finish_reason : String
deriving DecidableEq, Repr

/-- Pydantic `ChatCompletionUsage`. -/
structure ChatCompletionUsage where
  prompt_tokens : Nat
  completion_tokens : Nat
  total_tokens : Nat
deriving DecidableEq, Repr

/-- Pydantic `ChatCompletionResponse`. -/
structure ChatCompletionResponse where
  id : String
  object : String := "chat.completion"
  created : Nat
  model : String
  choices : List ChatCompletionChoice
  usage : ChatCompletionUsage
deriving DecidableEq, Repr

/-- FastAPI `HTTPException` as raised by the handlers. -/
structure HTTPError where
  status_code : Nat
  detail : String
deriving DecidableEq, Repr

/-- Outcome of the `subprocess.Popen` / `communicate` step inside
`run_claude_command`: the process ran to completion with captured streams and
exit code, the 300-second timeout expired, or setup/communication raised. -/
inductive ProcOutcome where
  | completed (stdout stderr : String) (returncode : Int)
  | timedOut
  | raised (msg : String)
deriving DecidableEq, Repr

/-- The `model_mapping` dict of `run_claude_command`, in source order. -/
def model_mapping : List (String × String) :=
  [("claude-sonnet-4", "claude-sonnet-4-20250514"),
   ("claude-opus-4", "claude-opus-4-20250514"),
   ("claude-opus-4.1", "claude-opus-4-1-20250805"),
   ("claude-sonnet-3.7", "claude-3-7-sonnet-20250219"),
   ("claude-haiku-3.5", "claude-3-5-haiku-20241022"),
   ("claude-sonnet-4-20250514", "claude-sonnet-4-20250514"),
   ("claude-opus-4-20250514", "claude-opus-4-20250514"),
   ("claude-opus-4-1-20250805", "claude-opus-4-1-20250805"),
   ("claude-3-7-sonnet-20250219", "claude-3-7-sonnet-20250219"),
   ("claude-3-5-haiku-20241022", "claude-3-5-haiku-20241022")]

/-- Python `model_mapping.get(model, "claude-sonnet-4-20250514")`: the Model
Name Resolver. -/
def resolve_model (model : String) : String :=
  (model_mapping.lookup model).getD "claude-sonnet-4-20250514"

/-- The method `ClaudeCodeInterface.run_claude_command`.  It launches the
shell command built below and observes an outcome; here the outcome is a
parameter and the function maps it to the returned `(success, payload)` pair:
exit code 0 yields the extracted stdout; a nonzero exit yields stripped
stderr when stderr is non-empty, else `"Exit code N"`; `TimeoutExpired`
yields `"Command timed out"`; any other exception yields its message. -/
def run_claude_command (outcome : ProcOutcome) (message model : String) :
    Bool × String :=
  let claude_model := resolve_model model
  let _command := "npx claude --model " ++ claude_model ++
    " --dangerously-skip-permissions \"" ++ message ++ "\""
  match outcome with
  | .completed stdout stderr returncode =>
    if returncode = 0 then
      (true, extract_claude_response stdout)
    else
      (false, if stderr ≠ "" then pyStrip stderr
              else "Exit code " ++ toString returncode)
  | .timedOut => (false, "Command timed out")
  | .raised msg => (false, msg)

/-- The prompt-selection loop of `create_chat_completion`:
`user_message = ""`, then scan `reversed(request.messages)` and stop at the
first message with role `"user"`. -/
def lastUserMessageContent (messages : List ChatMessage) : String :=
  match messages.reverse.find? (fun m => m.role == "user") with
  | some m => m.content
  | none => ""

/-- A call made to the Subprocess Runner, recording its arguments. -/
structure RunnerCall where
  prompt : String
  model : String
deriving DecidableEq, Repr

/-- Route `POST /v1/chat/completions` (`create_chat_completion`), taking
the Subprocess Runner (so stubs can be plugged in), the generated completion
id, and the timestamp.  Returns the HTTP result together with the list of
runner calls made while handling the request. -/
def create_chat_completion (runner : String → String → Bool × String)
    (request : ChatCompletionRequest) (completion_id : String)
    (created_timestamp : Nat) :
    Except HTTPError ChatCompletionResponse × List RunnerCall :=
  let user_message := lastUserMessageContent request.messages
  if user_message = "" then
    (.error ⟨400, "No user message found in the conversation"⟩, [])
  else
    let res := runner user_message request.model
    let calls := [RunnerCall.mk user_message request.model]
    if res.1 = false then
      (.error ⟨500, "Claude Code CLI error: " ++ res.2⟩, calls)
    else
      let response := res.2
      let prompt_tokens := 13 * wordCount user_message / 10
      let completion_tokens := 13 * wordCount response / 10
      let total_tokens := (13 * wordCount user_message +
        13 * wordCount response) / 10
      (.ok { id := completion_id
             created := created_timestamp
             model := request.model
             choices := [{ index := 0
                           message := { role := "assistant"
                                        content := response }
                           finish_reason := "stop" }]
             usage := { prompt_tokens := prompt_tokens
                        completion_tokens := completion_tokens
                        total_tokens := total_tokens } }, calls)

/-- Body returned by `GET /health`. -/
structure HealthResponse where
  status : String
  claude_code : Option String := none
  error : Option String := none
deriving DecidableEq, Repr

/-- Route `GET /health` (`health_check`), taking the outcome of the probe
call `run_claude_command("Hi")`: either a returned `(success, payload)` pair
or a raised exception message. -/
def health_check (probe : Except String (Bool × String)) : HealthResponse :=
  match probe with
  | .ok (true, _) => { status := "healthy", claude_code := some "available" }
  | .ok (false, _) =>
    { status := "degraded", claude_code := some "unavailable" }
  | .error e => { status := "unhealthy", error := some e }

/-! ### Helper lemmas -/

/-- Inversion for the success path of `create_chat_completion`: a `200`
result forces a non-empty last user message, and determines the whole
response body from the runner's output. -/
theorem create_ok_inversion (runner : String → String → Bool × String)
    (req : ChatCompletionRequest) (cid : String) (ts : Nat)
    (resp : ChatCompletionResponse)
    (h : (create_chat_completion runner req cid ts).1 = .ok resp) :
    lastUserMessageContent req.messages ≠ "" ∧
    resp =
      { id := cid
        created := ts
        model := req.model
        choices := [{ index := 0
                      message := { role := "assistant"
                                   content := (runner
                                     (lastUserMessageContent req.messages)
                                     req.model).2 }
                      finish_reason := "stop" }]
        usage := { prompt_tokens :=
                     13 * wordCount (lastUserMessageContent req.messages) / 10
                   completion_tokens :=
                     13 * wordCount ((runner
                       (lastUserMessageContent req.messages) req.model).2) / 10
                   total_tokens :=
                     (13 * wordCount (lastUserMessageContent req.messages) +
                      13 * wordCount ((runner
                        (lastUserMessageContent req.messages)
                        req.model).2)) / 10 } } := by
  by_cases h1 : lastUserMessageContent req.messages = ""
  · simp [create_chat_completion, h1] at h
  · by_cases h2 :
      (runner (lastUserMessageContent req.messages) req.model).1 = false
    · simp [create_chat_completion, h1, h2] at h
    · simp [create_chat_completion, h1, h2] at h
      exact ⟨h1, h.symm⟩

end ClaudeCodeAPI

namespace ClaudeCodeAPI

/-! ### Claim theorems -/

/-- C2: for every chat-completion request whose messages contain no
user-role message, `create_chat_completion` returns a 400 error with the
explanatory detail and performs no runner call at all. -/
theorem no_user_message_yields_400_without_runner
    (runner : String → String → Bool × String)
    (req : ChatCompletionRequest) (cid : String) (ts : Nat)
    (h : ∀ m ∈ req.messages, m.role ≠ "user") :
    create_chat_completion runner req cid ts =
      (.error ⟨400, "No user message found in the conversation"⟩, []) := by
  have hf : req.messages.reverse.find? (fun m => m.role == "user") = none := by
    rw [List.find?_eq_none]
    intro m hm
    simpa using h m (List.mem_reverse.mp hm)
  simp [create_chat_completion, lastUserMessageContent, hf]

/-- Witness for C2 at a concrete request containing only a system message. -/
theorem no_user_message_yields_400_without_runner_witness :
    create_chat_completion (fun _ _ => (true, "ok"))
      { model := "claude-sonnet-4"
        messages := [{ role := "system", content := "be nice" }] } "cid" 5 =
      (.error ⟨400, "No user message found in the conversation"⟩, []) :=
  no_user_message_yields_400_without_runner _ _ _ _ (by decide)

/-- C3: the Model Name Resolver is total; the five documented short aliases
map to their documented canonical ids, every canonical id passes through
unchanged, and any input outside the mapping's keys resolves to the fixed
default `claude-sonnet-4-20250514`. -/
theorem resolve_model_total_spec :
    resolve_model "claude-sonnet-4" = "claude-sonnet-4-20250514" ∧
    resolve_model "claude-opus-4" = "claude-opus-4-20250514" ∧
    resolve_model "claude-opus-4.1" = "claude-opus-4-1-20250805" ∧
    resolve_model "claude-sonnet-3.7" = "claude-3-7-sonnet-20250219" ∧
    resolve_model "claude-haiku-3.5" = "claude-3-5-haiku-20241022" ∧
    (∀ c ∈ model_mapping.map Prod.snd, resolve_model c = c) ∧
    (∀ m, m ∉ model_mapping.map Prod.fst →
      resolve_model m = "claude-sonnet-4-20250514") := by
  refine ⟨by decide, by decide, by decide, by decide, by decide, by decide, ?_⟩
  intro m hm
  simp only [model_mapping, List.map, List.mem_cons, List.not_mem_nil,
    or_false, not_or] at hm
  obtain ⟨h1, h2, h3, h4, h5, h6, h7, h8, h9, h10⟩ := hm
  simp [resolve_model, model_mapping, List.lookup,
    beq_eq_false_iff_ne.mpr h1, beq_eq_false_iff_ne.mpr h2,
    beq_eq_false_iff_ne.mpr h3, beq_eq_false_iff_ne.mpr h4,
    beq_eq_false_iff_ne.mpr h5, beq_eq_false_iff_ne.mpr h6,
    beq_eq_false_iff_ne.mpr h7, beq_eq_false_iff_ne.mpr h8,
    beq_eq_false_iff_ne.mpr h9, beq_eq_false_iff_ne.mpr h10]

/-- Witness for C3 on an unknown model name. -/
theorem resolve_model_total_spec_witness :
    resolve_model "gpt-4" = "claude-sonnet-4-20250514" :=
  resolve_model_total_spec.2.2.2.2.2.2 "gpt-4" (by decide)

/-- C8: the health endpoint reports "healthy"/"available" when the runner
returns success, "degraded"/"unavailable" when it returns failure, and
"unhealthy" with the fault message when the runner call raises. -/
theorem health_check_spec :
    (∀ payload : String, health_check (.ok (true, payload)) =
      { status := "healthy", claude_code := some "available" }) ∧
    (∀ payload : String, health_check (.ok (false, payload)) =
      { status := "degraded", claude_code := some "unavailable" }) ∧
    (∀ msg : String, health_check (.error msg) =
      { status := "unhealthy", error := some msg }) :=
  ⟨fun _ => rfl, fun _ => rfl, fun _ => rfl⟩

/-- C9: every 200 chat-completion response has exactly one choice, at index
0, with role "assistant" and finish_reason "stop", and echoes the requested
model id verbatim, whatever the request's `n` parameter is. -/
theorem response_single_choice_echoes_model
    (runner : String → String → Bool × String)
    (req : ChatCompletionRequest) (cid : String) (ts : Nat)
    (resp : ChatCompletionResponse)
    (h : (create_chat_completion runner req cid ts).1 = .ok resp) :
    resp.model = req.model ∧
    ∃ content, resp.choices =
      [{ index := 0
         message := { role := "assistant", content := content }
         finish_reason := "stop" }] := by
  obtain ⟨-, rfl⟩ := create_ok_inversion _ _ _ _ _ h
  exact ⟨rfl, _, rfl⟩

/-- Witness for C9 at a concrete successful request. -/
theorem response_single_choice_echoes_model_witness :
    ({ id := "cid0", created := 7, model := "claude-opus-4",
       choices := [{ index := 0
                     message := { role := "assistant", content := "w x y z" }
                     finish_reason := "stop" }],
       usage := ⟨3, 5, 9⟩ } : ChatCompletionResponse).model =
        "claude-opus-4" ∧
    ∃ content,
      ({ id := "cid0", created := 7, model := "claude-opus-4",
         choices := [{ index := 0
                       message := { role := "assistant", content := "w x y z" }
                       finish_reason := "stop" }],
         usage := ⟨3, 5, 9⟩ } : ChatCompletionResponse).choices =
        [{ index := 0
           message := { role := "assistant", content := content }
           finish_reason := "stop" }] :=
  response_single_choice_echoes_model (fun _ _ => (true, "w x y z"))
    { model := "claude-opus-4"
      messages := [{ role := "user", content := "p q r" }] } "cid0" 7 _
    (by rfl)

/-- C1 counterexample: a request whose only (hence most recent) user-role
message has empty content.  A user message exists, yet the endpoint makes no
runner call at all (it answers 400), so the prompt passed to the runner is
not that message's content. -/
theorem prompt_last_user_counterexample :
    (∃ m ∈ [({ role := "user", content := "" } : ChatMessage)],
      m.role = "user") ∧
    (create_chat_completion (fun _ _ => (true, "a perfectly good answer"))
      { model := "claude-sonnet-4"
        messages := [{ role := "user", content := "" }] } "cid" 0).2 ≠
      [{ prompt := "", model := "claude-sonnet-4" }] ∧
    (create_chat_completion (fun _ _ => (true, "a perfectly good answer"))
      { model := "claude-sonnet-4"
        messages := [{ role := "user", content := "" }] } "cid" 0).2 = [] := by
  refine ⟨by decide, by decide, by decide⟩

/-- C1 amended: when the most recent user-role message (`m`, followed only by
non-user messages `l2`) has non-empty content, the runner is called exactly
once, with that content as the prompt — regardless of the other messages'
roles and contents. -/
theorem prompt_is_last_user_message
    (runner : String → String → Bool × String)
    (l1 l2 : List ChatMessage) (m : ChatMessage) (model cid : String)
    (ts : Nat) (hrole : m.role = "user")
    (hafter : ∀ x ∈ l2, x.role ≠ "user") (hcontent : m.content ≠ "") :
    (create_chat_completion runner
      { model := model, messages := l1 ++ m :: l2 } cid ts).2 =
      [{ prompt := m.content, model := model }] := by
  have hlast : lastUserMessageContent (l1 ++ m :: l2) = m.content := by
    have h2 : l2.reverse.find? (fun x => x.role == "user") = none := by
      rw [List.find?_eq_none]
      intro x hx
      simpa using hafter x (List.mem_reverse.mp hx)
    simp [lastUserMessageContent, List.reverse_append, List.find?_append, h2,
      hrole]
  by_cases hrun : (runner m.content model).1 = false
  · simp [create_chat_completion, hlast, hcontent, hrun]
  · simp [create_chat_completion, hlast, hcontent, hrun]

/-- Witness for the C1 amended theorem at a concrete conversation. -/
theorem prompt_is_last_user_message_witness :
    (create_chat_completion (fun _ _ => (true, "fine"))
      { model := "claude-opus-4"
        messages := [{ role := "system", content := "be terse" },
                     { role := "user", content := "old question" },
                     { role := "user", content := "new question" },
                     { role := "assistant", content := "previous answer" }] }
      "cid" 3).2 =
      [{ prompt := "new question", model := "claude-opus-4" }] :=
  prompt_is_last_user_message (fun _ _ => (true, "fine"))
    [{ role := "system", content := "be terse" },
     { role := "user", content := "old question" }]
    [{ role := "assistant", content := "previous answer" }]
    { role := "user", content := "new question" } "claude-opus-4" "cid" 3
    (by decide) (by decide) (by decide)

/-- C5: the Response Extractor coincides with the spec's description
(drop blank lines, drop noise lines, trim, rejoin, fall back to the full
trimmed raw stdout when the result is empty or shorter than 10 characters);
in particular, on stdout consisting solely of noise-pattern lines the output
is the full trimmed raw input. -/
theorem extract_matches_spec_with_fallback (raw : String) :
    extract_claude_response raw = extract_spec_description raw ∧
    ((∀ l ∈ splitP (fun c => c = '\n') (pyStrip raw).data, isNoiseLine l) →
      extract_claude_response raw = pyStrip raw) := by
  constructor
  · have hcomm : ∀ l : List Char,
        (!isNoiseLine l && !(pyStripL l).isEmpty) = keepLine l := by
      intro l
      simp [keepLine, Bool.and_comm]
    simp [extract_claude_response, extract_spec_description,
      List.filter_filter, hcomm]
  · intro h
    have hnil :
        (splitP (fun c => c = '\n') (pyStrip raw).data).filter keepLine =
          [] := by
      rw [List.filter_eq_nil_iff]
      intro l hl
      simp [keepLine, h l hl]
    simp [extract_claude_response, hnil, List.intercalate]

/-- Witness for C5's noise-only fallback at a concrete stdout. -/
theorem extract_matches_spec_with_fallback_witness :
    extract_claude_response "Session started\n│ x" =
      pyStrip "Session started\n│ x" :=
  (extract_matches_spec_with_fallback "Session started\n│ x").2 (by decide)

/-- C6 counterexample: stdout "Session\nhi" has exactly one clean content
line ("hi") amid noise lines ("Session"), yet the extractor's output is the
whole stripped stdout, not that line, because the filtered result is shorter
than 10 characters. -/
theorem single_clean_line_counterexample :
    isNoiseLine "Session".data = true ∧
    keepLine "hi".data = true ∧
    (splitP (fun c => c = '\n')
      (pyStrip "Session\nhi").data).filter keepLine = ["hi".data] ∧
    extract_claude_response "Session\nhi" ≠ "hi" := by
  refine ⟨by decide, by decide, by decide, by decide⟩

/-- C6 amended: when stdout has exactly one clean content line amid blank or
noise lines and that line's trimmed form is at least 10 characters long, the
extractor returns exactly that line, trimmed. -/
theorem single_clean_line_extracted (raw : String) (l : List Char)
    (h : (splitP (fun c => c = '\n') (pyStrip raw).data).filter keepLine =
      [l])
    (hlen : 10 ≤ (pyStripL l).length) :
    extract_claude_response raw = ⟨pyStripL l⟩ := by
  have h1 : (pyStripL l).isEmpty = false := by
    cases he : pyStripL l with
    | nil => rw [he] at hlen; simp at hlen
    | cons a as => rfl
  have h2 : ¬ ((pyStripL l).length < 10) := by omega
  simp [extract_claude_response, h, h1, h2, List.intercalate,
    List.intersperse]

/-- Witness for the C6 amended theorem at a concrete stdout. -/
theorem single_clean_line_extracted_witness :
    extract_claude_response "Session started\nhello there friend" =
      "hello there friend" :=
  single_clean_line_extracted "Session started\nhello there friend"
    "hello there friend".data (by decide) (by decide)

/-- C7 counterexample: on a nonzero exit with stderr "boom\n", the runner's
payload is the stripped stderr "boom", not the stderr text itself. -/
theorem runner_stderr_counterexample :
    run_claude_command (.completed "" "boom\n" 1) "msg" "claude-sonnet-4" =
      (false, "boom") ∧
    ("boom" : String) ≠ "boom\n" := by
  refine ⟨by decide, by decide⟩

/-- C7 amended: the runner is total (always returns a `(success, payload)`
pair); on nonzero exit code the payload is the trimmed stderr when stderr is
non-empty, else "Exit code N"; on timeout it is the timeout message; a raised
exception becomes a failure carrying the exception's message. -/
theorem run_claude_command_failure_modes :
    (∀ (out err : String) (code : Int) (m mo : String), code ≠ 0 →
      run_claude_command (.completed out err code) m mo =
        (false, if err ≠ "" then pyStrip err
                else "Exit code " ++ toString code)) ∧
    (∀ m mo : String,
      run_claude_command .timedOut m mo = (false, "Command timed out")) ∧
    (∀ e m mo : String,
      run_claude_command (.raised e) m mo = (false, e)) := by
  refine ⟨?_, fun _ _ => rfl, fun _ _ _ => rfl⟩
  intro out err code m mo hc
  simp [run_claude_command, hc]

/-- Witness for the C7 amended theorem at a concrete nonzero exit. -/
theorem run_claude_command_failure_modes_witness :
    run_claude_command (.completed "" "boom\n" 1) "m" "claude-sonnet-4" =
      (false, "boom") :=
  run_claude_command_failure_modes.1 "" "boom\n" 1 "m" "claude-sonnet-4"
    (by decide)

/-- C4: when the process step succeeds with a fixed stdout payload, the
endpoint returns 200 with `choices[0].message.content` equal to the Response
Extractor's output on that payload, and `usage.total_tokens` equal to the
truncation of prompt-word-count × 1.3 plus extracted-word-count × 1.3. -/
theorem fixed_stdout_roundtrip (payload errS : String)
    (req : ChatCompletionRequest) (cid : String) (ts : Nat)
    (h : lastUserMessageContent req.messages ≠ "") :
    ∃ resp, (create_chat_completion
        (fun m mo => run_claude_command (.completed payload errS 0) m mo)
        req cid ts).1 = .ok resp ∧
      resp.choices.map (fun c => c.message.content) =
        [extract_claude_response payload] ∧
      resp.usage.total_tokens =
        (13 * wordCount (lastUserMessageContent req.messages) +
         13 * wordCount (extract_claude_response payload)) / 10 := by
  refine ⟨{ id := cid
            created := ts
            model := req.model
            choices := [{ index := 0
                          message := { role := "assistant"
                                       content :=
                                         extract_claude_response payload }
                          finish_reason := "stop" }]
            usage := { prompt_tokens :=
                         13 * wordCount (lastUserMessageContent req.messages)
                           / 10
                       completion_tokens :=
                         13 * wordCount (extract_claude_response payload) / 10
                       total_tokens :=
                         (13 * wordCount (lastUserMessageContent req.messages)
                          + 13 * wordCount (extract_claude_response payload))
                           / 10 } }, ?_, by simp, by simp⟩
  simp [create_chat_completion, run_claude_command, h]

/-- Witness for C4 at a concrete request and stdout payload. -/
theorem fixed_stdout_roundtrip_witness :
    ∃ resp, (create_chat_completion
        (fun m mo => run_claude_command
          (.completed "Session noise\nthe quick brown fox" "" 0) m mo)
        { model := "claude-sonnet-4"
          messages := [{ role := "user", content := "a b c" }] }
        "cid" 0).1 = .ok resp ∧
      resp.choices.map (fun c => c.message.content) =
        [extract_claude_response "Session noise\nthe quick brown fox"] ∧
      resp.usage.total_tokens =
        (13 * wordCount (lastUserMessageContent
           [{ role := "user", content := "a b c" }]) +
         13 * wordCount (extract_claude_response
           "Session noise\nthe quick brown fox")) / 10 :=
  fixed_stdout_roundtrip "Session noise\nthe quick brown fox" ""
    { model := "claude-sonnet-4"
      messages := [{ role := "user", content := "a b c" }] } "cid" 0
    (by decide)

/-- C10: in every 200 response the total token count is between the sum of
the two component estimates and that sum plus one, and for a 3-word prompt
with a 3-word completion it strictly exceeds the sum, because the total is
the truncation of the un-truncated sum while the components are truncated
individually. -/
theorem usage_total_tokens_truncation_bounds :
    (∀ (runner : String → String → Bool × String)
        (req : ChatCompletionRequest) (cid : String) (ts : Nat)
        (resp : ChatCompletionResponse),
      (create_chat_completion runner req cid ts).1 = .ok resp →
      resp.usage.prompt_tokens + resp.usage.completion_tokens ≤
          resp.usage.total_tokens ∧
        resp.usage.total_tokens ≤
          resp.usage.prompt_tokens + resp.usage.completion_tokens + 1) ∧
    ∃ resp, (create_chat_completion (fun _ _ => (true, "d e f"))
        { model := "claude-sonnet-4"
          messages := [{ role := "user", content := "a b c" }] }
        "cid" 0).1 = .ok resp ∧
      resp.usage.prompt_tokens + resp.usage.completion_tokens <
        resp.usage.total_tokens := by
  constructor
  · intro runner req cid ts resp h
    obtain ⟨-, rfl⟩ := create_ok_inversion _ _ _ _ _ h
    simp only []
    constructor <;> omega
  · exact ⟨{ id := "cid"
             created := 0
             model := "claude-sonnet-4"
             choices := [{ index := 0
                           message := { role := "assistant"
                                        content := "d e f" }
                           finish_reason := "stop" }]
             usage := ⟨3, 3, 7⟩ }, by rfl, by decide⟩

/-- Witness for C10's bounded part at a concrete 200 response. -/
theorem usage_total_tokens_truncation_bounds_witness :
    ({ id := "cid", created := 0, model := "claude-sonnet-4",
       choices := [{ index := 0
                     message := { role := "assistant", content := "d e f" }
                     finish_reason := "stop" }],
       usage := ⟨3, 3, 7⟩ } : ChatCompletionResponse).usage.prompt_tokens +
        ({ id := "cid", created := 0, model := "claude-sonnet-4",
           choices := [{ index := 0
                         message := { role := "assistant",
                                      content := "d e f" }
                         finish_reason := "stop" }],
           usage := ⟨3, 3, 7⟩ } :
          ChatCompletionResponse).usage.completion_tokens ≤
        ({ id := "cid", created := 0, model := "claude-sonnet-4",
           choices := [{ index := 0
                         message := { role := "assistant",
                                      content := "d e f" }
                         finish_reason := "stop" }],
           usage := ⟨3, 3, 7⟩ } :
          ChatCompletionResponse).usage.total_tokens ∧
      ({ id := "cid", created := 0, model := "claude-sonnet-4",
         choices := [{ index := 0
                       message := { role := "assistant", content := "d e f" }
                       finish_reason := "stop" }],
         usage := ⟨3, 3, 7⟩ } :
        ChatCompletionResponse).usage.total_tokens ≤
        ({ id := "cid", created := 0, model := "claude-sonnet-4",
           choices := [{ index := 0
                         message := { role := "assistant",
                                      content := "d e f" }
                         finish_reason := "stop" }],
           usage := ⟨3, 3, 7⟩ } :
          ChatCompletionResponse).usage.prompt_tokens +
          ({ id := "cid", created := 0, model := "claude-sonnet-4",
             choices := [{ index := 0
                           message := { role := "assistant",
                                        content := "d e f" }
                           finish_reason := "stop" }],
             usage := ⟨3, 3, 7⟩ } :
            ChatCompletionResponse).usage.completion_tokens + 1 :=
  usage_total_tokens_truncation_bounds.1 (fun _ _ => (true, "d e f"))
    { model := "claude-sonnet-4"
      messages := [{ role := "user", content := "a b c" }] } "cid" 0 _
    (by rfl)

end ClaudeCodeAPI

open ClaudeCodeAPI in
example : pyStrip "  a b\n" = "a b" := by decide

open ClaudeCodeAPI in
example : containsSubL "Session".data "x Session y".data = true := by decide

open ClaudeCodeAPI in
example : wordCount " a  bb c " = 3 := by decide

open ClaudeCodeAPI in
example : splitP (fun c => c = '\n') "a\nb\n\nc".data =
    ["a".data, "b".data, [], "c".data] := by decide

open ClaudeCodeAPI in
example : extract_claude_response "Session started\n  hello there friend \n│ box" =
    "hello there friend" := by decide

open ClaudeCodeAPI in
example : extract_claude_response "Session\nhi" = "Session\nhi" := by decide
